import Mathlib

/-!
Verification of the GWR (geographically weighted regression) core in
pysal/contrib/gwr/gwr.py: the calibration loop of GWR.fit, the hat-matrix
assembly and rescaling, and the diagnostics of GWRResults.

Conventions of the embedding:
* scalars are rationals (the numeric float literals .1, .05, .001 of the
  source are taken at their decimal values);
* the external single-location IRLS solver (pysal.contrib.glm.iwls) is an
  abstract function from a weight row to its result tuple, since the loop
  treats it as a black box and passes it only read-only inputs;
* Python exceptions are an explicit error type, and fallible functions
  return Except.
-/

/-- Python exception kinds that the modelled code can raise. -/
inductive PyErr where
  /-- TypeError with a message and the offending argument. -/
  | typeError (msg : String) (arg : String)
  /-- KeyError from a failed dict lookup. -/
  | keyError (key : String)
  /-- NameError: a global name is not defined. -/
  | nameError (nm : String)
  /-- UnboundLocalError: a local variable referenced before assignment. -/
  | unboundLocal (nm : String)
deriving DecidableEq

/-- Model family objects imported from pysal.contrib.glm.family. -/
inductive Family where
  | Gaussian
  | Poisson
  | Binomial
deriving DecidableEq

/-- Result tuple of one call to the external IRLS solver iwls:
rslt[0] the local coefficients, rslt[1] the global predicted vector,
rslt[2] the global linear predictor, rslt[3] the final IRLS weights,
rslt[4] the working response, rslt[5] the k x n block (XtWX)inv XtW. -/
structure IWLSResult (n k : ℕ) where
  params : Fin k → ℚ
  predy : Fin n → ℚ
  linpred : Fin n → ℚ
  w : Fin n → ℚ
  z : Fin n → ℚ
  C : Matrix (Fin k) (Fin n) ℚ
deriving DecidableEq

/-- Per-location output arrays of GWR.fit, as zero-initialised before the
calibration loop (params, predy, v, w, z, S, R, CCT in the source). -/
structure FitState (n k : ℕ) where
  params : Matrix (Fin n) (Fin k) ℚ
  predy : Fin n → ℚ
  v : Fin n → ℚ
  w : Fin n → ℚ
  z : Matrix (Fin n) (Fin n) ℚ
  S : Matrix (Fin n) (Fin n) ℚ
  R : Matrix (Fin n) (Fin n) ℚ
  CCT : Matrix (Fin n) (Fin k) ℚ
deriving DecidableEq

namespace GWR

variable {n k : ℕ}

/-- The zero-initialised arrays (np.zeros) at loop entry. -/
def fitInit (n k : ℕ) : FitState n k :=
  { params := 0, predy := 0, v := 0, w := 0, z := 0, S := 0, R := 0, CCT := 0 }

/-- The row product ri = np.dot(X[i], C) of the design row i with the
k x n solver block C (a 1 x n vector). -/
def fitRi (X : Matrix (Fin n) (Fin k) ℚ) (C : Matrix (Fin k) (Fin n) ℚ)
    (i : Fin n) : Fin n → ℚ :=
  fun j => ∑ m, X i m * C m j

/-- One iteration of the calibration loop at location i: call the solver on
weight row i of W and write index i of every output array, exactly as the
source body does (S row i is ri elementwise-multiplied by the working
response; R row i is ri itself; CCT row i is the diagonal of C Ct). -/
def fitStep (solver : (Fin n → ℚ) → IWLSResult n k)
    (X : Matrix (Fin n) (Fin k) ℚ) (W : Matrix (Fin n) (Fin n) ℚ)
    (s : FitState n k) (i : Fin n) : FitState n k :=
  let rslt := solver (fun j => W i j)
  let ri := fitRi X rslt.C i
  { params := Matrix.updateRow s.params i rslt.params
    predy := Function.update s.predy i (rslt.predy i)
    v := Function.update s.v i (rslt.linpred i)
    w := Function.update s.w i (rslt.w i)
    z := Matrix.updateRow s.z i rslt.z
    S := Matrix.updateRow s.S i (fun j => ri j * rslt.z j)
    R := Matrix.updateRow s.R i ri
    CCT := Matrix.updateRow s.CCT i (fun m => ∑ j, rslt.C m j * rslt.C m j) }

/-- The full calibration loop: fold fitStep over i = 0, ..., n-1. -/
def fitLoop (solver : (Fin n → ℚ) → IWLSResult n k)
    (X : Matrix (Fin n) (Fin k) ℚ) (W : Matrix (Fin n) (Fin n) ℚ) :
    FitState n k :=
  (List.finRange n).foldl (fitStep solver X W) (fitInit n k)

/-- The post-loop hat matrix: S = S * (1.0/z) elementwise, as in the source
line after the loop. -/
def fitS (solver : (Fin n → ℚ) → IWLSResult n k)
    (X : Matrix (Fin n) (Fin k) ℚ) (W : Matrix (Fin n) (Fin n) ℚ) :
    Matrix (Fin n) (Fin n) ℚ :=
  Matrix.of fun i j => (fitLoop solver X W).S i j * (1 / (fitLoop solver X W).z i j)

/-- All entries of a FitState at a given location index, bundled so that
frame and characterisation lemmas cover every output array at once. -/
def stateRow (s : FitState n k) (i : Fin n) :
    (Fin k → ℚ) × ℚ × ℚ × ℚ × (Fin n → ℚ) × (Fin n → ℚ) × (Fin n → ℚ) × (Fin k → ℚ) :=
  (s.params i, s.predy i, s.v i, s.w i, s.z i, s.S i, s.R i, s.CCT i)

/-- The values iteration i computes for index i, as a pure function of the
shared inputs (solver closure over y, offset, y_fix, family, tol, max_iter;
design X; weights W) and the location index only. -/
def fitBodyRow (solver : (Fin n → ℚ) → IWLSResult n k)
    (X : Matrix (Fin n) (Fin k) ℚ) (W : Matrix (Fin n) (Fin n) ℚ) (i : Fin n) :
    (Fin k → ℚ) × ℚ × ℚ × ℚ × (Fin n → ℚ) × (Fin n → ℚ) × (Fin n → ℚ) × (Fin k → ℚ) :=
  let rslt := solver (fun j => W i j)
  let ri := fitRi X rslt.C i
  (rslt.params, rslt.predy i, rslt.linpred i, rslt.w i, rslt.z,
    fun j => ri j * rslt.z j, ri, fun m => ∑ j, rslt.C m j * rslt.C m j)

/-- Keys of the module-level dict fk of fixed kernel weight functions. -/
def fkKeys : List String := ["gaussian", "bisquare", "exponential"]

/-- Keys of the module-level dict ak of adaptive kernel weight functions. -/
def akKeys : List String := ["gaussian", "bisquare", "exponential"]

/-- A Python dict lookup keyed by kernel-name strings: KeyError on a missing
key, otherwise the stored weight routine applied to (coords, bw). The kernel
routines themselves live in the external kernels module, so the builder is
abstracted over a total function on the supported names. -/
def dictGet {α : Type} (keys : List String) (key : String)
    (apply : String → α) : Except PyErr α :=
  if key ∈ keys then .ok (apply key) else .error (.keyError key)

/-- Model of GWR._build_W as called from the constructor (points is None, so
the _shed branch is never taken). The fixed branch wraps its dict lookup in
a bare try/except that re-raises any failure as TypeError with message
"Unsupported kernel function  " and the kernel name; the adaptive branch
performs the raw dict lookup with no handler, so a missing key escapes as
the bare KeyError. -/
def build_W {α : Type} (fixed : Bool) (kernel : String)
    (applyFk applyAk : String → α) : Except PyErr α :=
  if fixed then
    match dictGet fkKeys kernel applyFk with
    | .ok W => .ok W
    | .error _ => .error (.typeError "Unsupported kernel function  " kernel)
  else
    dictGet akKeys kernel applyAk

/-- Inputs of a constructed GWR model that the fit method reads. -/
structure GWRModelData (n k : ℕ) where
  y : Fin n → ℚ
  X : Matrix (Fin n) (Fin k) ℚ
  W : Matrix (Fin n) (Fin n) ℚ
  sigma2_v1_flag : Bool
  family : Family

/-- Model of the GWR constructor: it stores the inputs and builds W through
_build_W, so an unsupported kernel name fails construction and no model (and
hence no calibration loop) can exist. -/
def mkGWR (y : Fin n → ℚ) (X : Matrix (Fin n) (Fin k) ℚ) (flag : Bool)
    (family : Family) (fixed : Bool) (kernel : String)
    (applyFk applyAk : String → Matrix (Fin n) (Fin n) ℚ) :
    Except PyErr (GWRModelData n k) := do
  let W ← build_W fixed kernel applyFk applyAk
  return { y := y, X := X, W := W, sigma2_v1_flag := flag, family := family }

end GWR

/-- The immutable aggregate held by GWRResults: the inputs it keeps, the
per-location outputs of the loop, the family, and the sigma2_v1 selector
flag of the model. The residual u = y - predy is the resid_response of the
external GLMResults base class. Modelled from the spec: the spec defines
u = y − predy (section 3), matching the sibling GLMResults class in src. -/
structure GWRResultsData (n k : ℕ) where
  sigma2_v1_flag : Bool
  family : Family
  y : Fin n → ℚ
  params : Matrix (Fin n) (Fin k) ℚ
  predy : Fin n → ℚ
  w : Fin n → ℚ
  S : Matrix (Fin n) (Fin n) ℚ
  CCT : Matrix (Fin n) (Fin k) ℚ
deriving DecidableEq

namespace GWRResults

variable {n k : ℕ}

/-- The residual vector u = (resid_response).flatten() = y - predy. -/
def u (r : GWRResultsData n k) : Fin n → ℚ :=
  fun i => r.y i - r.predy i

/-- The residual sum of squares utu = np.dot(u, u.T). -/
def utu (r : GWRResultsData n k) : ℚ :=
  ∑ i, u r i * u r i

/-- The numpy broadcast M * w for an n x n matrix and an n x 1 column: entry
(i, j) becomes M[i, j] * w[i], i.e. row i is scaled by w[i]. -/
def rowMul (M : Matrix (Fin n) (Fin n) ℚ) (w : Fin n → ℚ) :
    Matrix (Fin n) (Fin n) ℚ :=
  Matrix.of fun i j => M i j * w i

/-- tr_S: np.trace(S * w), the trace of the row-scaled hat matrix. -/
def tr_S (r : GWRResultsData n k) : ℚ :=
  Matrix.trace (rowMul r.S r.w)

/-- tr_STS: np.trace(np.dot(S.T * w, S * w)). -/
def tr_STS (r : GWRResultsData n k) : ℚ :=
  Matrix.trace (rowMul r.S.transpose r.w * rowMul r.S r.w)

/-- sigma2_v1 = utu / (n - tr_S). -/
def sigma2_v1 (r : GWRResultsData n k) : ℚ :=
  utu r / ((n : ℚ) - tr_S r)

/-- sigma2_v1v2: the source branches on isinstance(family, (Poisson,
Binomial)) but both branches return utu / (n - 2 tr_S + tr_STS). -/
def sigma2_v1v2 (r : GWRResultsData n k) : ℚ :=
  match r.family with
  | .Poisson => utu r / ((n : ℚ) - 2 * tr_S r + tr_STS r)
  | .Binomial => utu r / ((n : ℚ) - 2 * tr_S r + tr_STS r)
  | .Gaussian => utu r / ((n : ℚ) - 2 * tr_S r + tr_STS r)

/-- The canonical sig2 chosen in GWRResults.__init__ by the model flag. -/
def sig2 (r : GWRResultsData n k) : ℚ :=
  if r.sigma2_v1_flag then sigma2_v1 r else sigma2_v1v2 r

/-- The keyword default of the sigma2_v1 flag in the GWR constructor. -/
def gwrDefault_sigma2_v1 : Bool := false

/-- The literal significance levels np.array([.1, .05, .001]) of adj_alpha. -/
def alphaLevels : Fin 3 → ℚ := ![1/10, 1/20, 1/1000]

/-- pe = 2 tr_S - tr_STS, the denominator used by adj_alpha. -/
def pe (r : GWRResultsData n k) : ℚ :=
  2 * tr_S r - tr_STS r

/-- adj_alpha = (alpha * p) / pe with p = k. The source computes this with
no guard and no raise statement: it is a total function of the aggregate. -/
def adj_alpha (r : GWRResultsData n k) : Fin 3 → ℚ :=
  fun j => alphaLevels j * (k : ℚ) / pe r

/-- Local variables of GWRResults.filter_tvals that have been assigned when
the line critical = stats.t.ppf(1 - critical, n - 1) executes: the
parameters self and alpha, and n. -/
def filterTvalsAssignedLocals : List String := ["self", "alpha", "n"]

/-- Reading a local name in CPython: a name that is a local of the function
but not yet assigned raises UnboundLocalError. -/
def lookupLocalName (assigned : List String) (nm : String) :
    Except PyErr Unit :=
  if nm ∈ assigned then .ok () else .error (.unboundLocal nm)

/-- Model of GWRResults.filter_tvals. The body halves the absolute alpha,
reads n, then evaluates critical = stats.t.ppf(1 - critical, n - 1): the
argument reads the local name critical before its only assignment (and the
callee reads a global name stats that the module never imports), so the
line raises; the remaining filtering statements are modelled as written but
are unreachable. -/
def filter_tvals (tvalues : Matrix (Fin n) (Fin k) ℚ) (alpha : ℚ) :
    Except PyErr (Matrix (Fin n) (Fin k) ℚ) := do
  let alphaHalf := |alpha| / 2
  let _ ← lookupLocalName filterTvalsAssignedLocals "critical"
  let filtered := Matrix.of fun i j =>
    if tvalues i j < alphaHalf ∧ -1 * alphaHalf < tvalues i j then 0
    else tvalues i j
  return filtered

end GWRResults

namespace GWR

variable {n k : ℕ}

/-- Model of GWR.fit. When solve.lower() == "iwls" the calibration loop
runs, the hat matrix is rescaled by the reciprocal of z, and a GWRResults
aggregate is built from the loop outputs. For any other solve string the
loop block is skipped, and the trailing
return GWRResults(self, params, predy, S, CCT, w) references the local
params that was only ever assigned inside the skipped block, raising
UnboundLocalError. -/
def fit (m : GWRModelData n k) (solver : (Fin n → ℚ) → IWLSResult n k)
    (solve : String) : Except PyErr (GWRResultsData n k) :=
  if solve.toLower = "iwls" then
    let st := fitLoop solver m.X m.W
    .ok { sigma2_v1_flag := m.sigma2_v1_flag
          family := m.family
          y := m.y
          params := st.params
          predy := st.predy
          w := st.w
          S := fitS solver m.X m.W
          CCT := st.CCT }
  else
    .error (.unboundLocal "params")

end GWR

/-! Refinement definitions written from the words of the spec, for
comparison against the source-derived definitions above. -/

/-- Hat-matrix assembly as the spec sentence for C1 describes it: the loop
writes row i of S as the bare leverage row X_i C_i, and the elementwise
rescale by the reciprocal of z is then applied to that. -/
def specHatC1 {n k : ℕ} (solver : (Fin n → ℚ) → IWLSResult n k)
    (X : Matrix (Fin n) (Fin k) ℚ) (W : Matrix (Fin n) (Fin n) ℚ) :
    Matrix (Fin n) (Fin n) ℚ :=
  Matrix.of fun i j =>
    GWR.fitRi X (solver (fun j2 => W i j2)).C i j *
      (1 / (GWR.fitLoop solver X W).z i j)

/-- Discriminates the error the spec calls ConfigurationError for kernels:
the only typed unsupported-kernel error the source can raise is the
TypeError tagged with the kernel name in the fixed branch of _build_W. -/
def isUnsupportedKernelTypeError {α : Type} : Except PyErr α → Bool
  | .error (.typeError _ _) => true
  | _ => false

/-! Concrete inputs used by counterexamples and witnesses. -/

/-- A concrete aggregate with n = k = 1, S = [[2]], w = [2]: here
tr_S = 4, tr_STS = 16, so pe = 8 - 16 = -8 < 0. -/
def rNeg : GWRResultsData 1 1 :=
  { sigma2_v1_flag := false, family := .Gaussian, y := ![1], params := !![1],
    predy := ![0], w := ![2], S := !![2], CCT := !![1] }

/-- A concrete solver for n = k = 1 whose working response is z = [2] and
whose block C is the 1 x 1 identity. -/
def solver1 : (Fin 1 → ℚ) → IWLSResult 1 1 := fun _ =>
  { params := ![2], predy := ![3], linpred := ![4], w := ![5], z := ![2],
    C := !![1] }

/-- A 1 x 1 design matrix. -/
def X1 : Matrix (Fin 1) (Fin 1) ℚ := !![1]

/-- A 1 x 1 spatial weight matrix. -/
def W1 : Matrix (Fin 1) (Fin 1) ℚ := !![1]

/-- A concrete model for n = k = 1 built from X1 and W1. -/
def m1 : GWR.GWRModelData 1 1 :=
  { y := ![1], X := X1, W := W1, sigma2_v1_flag := false, family := .Gaussian }

/-- A concrete solver for n = 2, k = 1 that depends on its weight row. -/
def solver2 : (Fin 2 → ℚ) → IWLSResult 2 1 := fun wv =>
  { params := ![wv 0 + 1], predy := ![wv 0, wv 1], linpred := ![0, 1],
    w := ![2, 3], z := ![1, 2], C := !![1, 0] }

/-- A 2 x 1 design matrix. -/
def X2 : Matrix (Fin 2) (Fin 1) ℚ := !![1; 2]

/-- A 2 x 2 spatial weight matrix. -/
def W2 : Matrix (Fin 2) (Fin 2) ℚ := !![1, 1/2; 1/2, 1]

/-- A first concrete loop state for n = 2, k = 1. -/
def sA : FitState 2 1 := GWR.fitInit 2 1

/-- A second, different concrete loop state for n = 2, k = 1. -/
def sB : FitState 2 1 := GWR.fitStep solver2 X2 W2 (GWR.fitInit 2 1) 1

/-! Helper lemmas about the calibration loop. -/

namespace GWR

variable {n k : ℕ}

theorem fitStep_stateRow_ne (solver : (Fin n → ℚ) → IWLSResult n k)
    (X : Matrix (Fin n) (Fin k) ℚ) (W : Matrix (Fin n) (Fin n) ℚ)
    (s : FitState n k) (i j : Fin n) (h : j ≠ i) :
    stateRow (fitStep solver X W s i) j = stateRow s j := by
  simp [fitStep, stateRow, Matrix.updateRow_ne h, Function.update_noteq h]

theorem fitStep_stateRow_self (solver : (Fin n → ℚ) → IWLSResult n k)
    (X : Matrix (Fin n) (Fin k) ℚ) (W : Matrix (Fin n) (Fin n) ℚ)
    (s : FitState n k) (i : Fin n) :
    stateRow (fitStep solver X W s i) i = fitBodyRow solver X W i := by
  simp [fitStep, stateRow, fitBodyRow, Matrix.updateRow_self, Function.update_same]

theorem foldl_stateRow_not_mem (solver : (Fin n → ℚ) → IWLSResult n k)
    (X : Matrix (Fin n) (Fin k) ℚ) (W : Matrix (Fin n) (Fin n) ℚ) :
    ∀ (l : List (Fin n)) (s : FitState n k) (i : Fin n), i ∉ l →
      stateRow (l.foldl (fitStep solver X W) s) i = stateRow s i
  | [], _, _, _ => rfl
  | a :: t, s, i, h => by
      have hne : i ≠ a := fun hia => h (by simp [hia])
      have ht : i ∉ t := fun hit => h (by simp [hit])
      rw [List.foldl_cons, foldl_stateRow_not_mem solver X W t _ i ht,
        fitStep_stateRow_ne solver X W s a i hne]

theorem foldl_stateRow_mem (solver : (Fin n → ℚ) → IWLSResult n k)
    (X : Matrix (Fin n) (Fin k) ℚ) (W : Matrix (Fin n) (Fin n) ℚ) :
    ∀ (l : List (Fin n)) (s : FitState n k) (i : Fin n), i ∈ l → l.Nodup →
      stateRow (l.foldl (fitStep solver X W) s) i = fitBodyRow solver X W i
  | [], _, i, hmem, _ => absurd hmem (List.not_mem_nil i)
  | a :: t, s, i, hmem, hnd => by
      rcases List.mem_cons.mp hmem with hia | hit
      · subst hia
        have ht : i ∉ t := (List.nodup_cons.mp hnd).1
        rw [List.foldl_cons, foldl_stateRow_not_mem solver X W t _ i ht,
          fitStep_stateRow_self solver X W s i]
      · rw [List.foldl_cons]
        exact foldl_stateRow_mem solver X W t _ i hit (List.nodup_cons.mp hnd).2

theorem fitLoop_stateRow (solver : (Fin n → ℚ) → IWLSResult n k)
    (X : Matrix (Fin n) (Fin k) ℚ) (W : Matrix (Fin n) (Fin n) ℚ) (i : Fin n) :
    stateRow (fitLoop solver X W) i = fitBodyRow solver X W i :=
  foldl_stateRow_mem solver X W (List.finRange n) (fitInit n k) i
    (List.mem_finRange i) (List.nodup_finRange n)

theorem fitLoop_z_apply (solver : (Fin n → ℚ) → IWLSResult n k)
    (X : Matrix (Fin n) (Fin k) ℚ) (W : Matrix (Fin n) (Fin n) ℚ) (i : Fin n) :
    (fitLoop solver X W).z i = (solver (fun j => W i j)).z := by
  have h := congrArg (fun t => t.2.2.2.2.1) (fitLoop_stateRow solver X W i)
  simpa [stateRow, fitBodyRow] using h

theorem fitLoop_S_apply (solver : (Fin n → ℚ) → IWLSResult n k)
    (X : Matrix (Fin n) (Fin k) ℚ) (W : Matrix (Fin n) (Fin n) ℚ) (i : Fin n) :
    (fitLoop solver X W).S i =
      fun j => fitRi X (solver (fun j2 => W i j2)).C i j *
        (solver (fun j2 => W i j2)).z j := by
  have h := congrArg (fun t => t.2.2.2.2.2.1) (fitLoop_stateRow solver X W i)
  simpa [stateRow, fitBodyRow] using h

theorem fitLoop_R_apply (solver : (Fin n → ℚ) → IWLSResult n k)
    (X : Matrix (Fin n) (Fin k) ℚ) (W : Matrix (Fin n) (Fin n) ℚ) (i : Fin n) :
    (fitLoop solver X W).R i = fitRi X (solver (fun j2 => W i j2)).C i := by
  have h := congrArg (fun t => t.2.2.2.2.2.2.1) (fitLoop_stateRow solver X W i)
  simpa [stateRow, fitBodyRow] using h

end GWR

/-- A row-scaled matrix equals the product with the diagonal weight matrix
on the left. -/
theorem rowMul_eq_diagonal_mul {n : ℕ} (M : Matrix (Fin n) (Fin n) ℚ)
    (w : Fin n → ℚ) :
    GWRResults.rowMul M w = Matrix.diagonal w * M := by
  ext i j
  simp [GWRResults.rowMul, Matrix.diagonal_mul, mul_comm]

/-! Claim theorems. -/

/-- C1 (amended): during the calibration loop, row i of S is written as the
leverage row ri = X_i C_i elementwise-multiplied by the working response row
z_i of location i (the bare leverage row is stored in R[i]), and after the
loop S is rescaled elementwise by the reciprocal of the stacked working
response matrix z. -/
theorem fit_hat_rows (n k : ℕ) (solver : (Fin n → ℚ) → IWLSResult n k)
    (X : Matrix (Fin n) (Fin k) ℚ) (W : Matrix (Fin n) (Fin n) ℚ) (i j : Fin n) :
    (GWR.fitLoop solver X W).S i j =
      GWR.fitRi X (solver (fun j2 => W i j2)).C i j *
        (solver (fun j2 => W i j2)).z j ∧
    (GWR.fitLoop solver X W).R i j =
      GWR.fitRi X (solver (fun j2 => W i j2)).C i j ∧
    GWR.fitS solver X W i j =
      (GWR.fitLoop solver X W).S i j * (1 / (GWR.fitLoop solver X W).z i j) := by
  refine ⟨?_, ?_, rfl⟩
  · exact congrFun (GWR.fitLoop_S_apply solver X W i) j
  · exact congrFun (GWR.fitLoop_R_apply solver X W i) j

/-- C1 counterexample: at a concrete one-location fit, the loop writes
S[0][0] = 2 while the leverage row X_0 C_0 has value 1 there, so the loop
does not set S[i] to the bare leverage row; consequently the final hat value
is 1 while the composite the claim describes (leverage divided by z) is
1/2. -/
theorem fit_hat_loop_row_not_bare_leverage :
    (GWR.fitLoop solver1 X1 W1).S 0 0 = 2 ∧
    GWR.fitRi X1 (solver1 (fun j => W1 0 j)).C 0 0 = 1 ∧
    GWR.fitS solver1 X1 W1 0 0 = 1 ∧
    specHatC1 solver1 X1 W1 0 0 = 1/2 := by
  have hz := congrFun (GWR.fitLoop_z_apply solver1 X1 W1 0) 0
  have hS := congrFun (GWR.fitLoop_S_apply solver1 X1 W1 0) 0
  have hri : GWR.fitRi X1 (solver1 (fun j => W1 0 j)).C 0 0 = 1 := by
    simp [GWR.fitRi, X1, solver1, Fin.sum_univ_one]
  have hz2 : (GWR.fitLoop solver1 X1 W1).z 0 0 = 2 := by
    rw [hz]; simp [solver1]
  have hS2 : (GWR.fitLoop solver1 X1 W1).S 0 0 = 2 := by
    rw [hS, hri]
    simp [solver1]
  refine ⟨hS2, hri, ?_, ?_⟩
  · show (GWR.fitLoop solver1 X1 W1).S 0 0 * (1 / (GWR.fitLoop solver1 X1 W1).z 0 0) = 1
    rw [hS2, hz2]; norm_num
  · show GWR.fitRi X1 (solver1 (fun j2 => W1 0 j2)).C 0 0 *
      (1 / (GWR.fitLoop solver1 X1 W1).z 0 0) = 1/2
    rw [hri, hz2]; norm_num

/-- C2: the canonical sig2 is chosen by the sigma2_v1 flag of the model:
utu / (n - tr_S) when the flag is set, utu / (n - 2 tr_S + tr_STS)
otherwise; utu is the sum of squared residuals, and the constructor default
of the flag is False. -/
theorem sig2_selected_by_flag (n k : ℕ) (r : GWRResultsData n k) :
    GWRResults.sig2 r =
      (if r.sigma2_v1_flag then
        GWRResults.utu r / ((n : ℚ) - GWRResults.tr_S r)
      else
        GWRResults.utu r /
          ((n : ℚ) - 2 * GWRResults.tr_S r + GWRResults.tr_STS r)) ∧
    GWRResults.utu r = ∑ i, GWRResults.u r i * GWRResults.u r i ∧
    GWRResults.gwrDefault_sigma2_v1 = false := by
  refine ⟨?_, rfl, rfl⟩
  by_cases h : r.sigma2_v1_flag
  · simp [GWRResults.sig2, h, GWRResults.sigma2_v1]
  · cases hf : r.family <;>
      simp [GWRResults.sig2, h, GWRResults.sigma2_v1v2, hf]

/-- C4: the cached tr_S is the weighted trace of the hat matrix, and the
cached tr_STS, computed as trace((S.T row-scaled by w) * (S row-scaled by
w)), equals the closed form trace(S.T diag(w) S diag(w)). -/
theorem tr_S_tr_STS_closed_form (n k : ℕ) (r : GWRResultsData n k) :
    GWRResults.tr_S r = ∑ i, r.S i i * r.w i ∧
    GWRResults.tr_STS r =
      Matrix.trace
        (r.S.transpose * Matrix.diagonal r.w * r.S * Matrix.diagonal r.w) := by
  constructor
  · simp [GWRResults.tr_S, GWRResults.rowMul, Matrix.trace, Matrix.diag]
  · rw [GWRResults.tr_STS, rowMul_eq_diagonal_mul, rowMul_eq_diagonal_mul]
    have h1 : Matrix.diagonal r.w * r.S.transpose * (Matrix.diagonal r.w * r.S) =
        Matrix.diagonal r.w * (r.S.transpose * Matrix.diagonal r.w * r.S) := by
      noncomm_ring
    rw [h1, Matrix.trace_mul_comm]

/-- Evaluation of the weighted trace at the concrete aggregate rNeg. -/
theorem tr_S_rNeg : GWRResults.tr_S rNeg = 4 := by
  simp [GWRResults.tr_S, GWRResults.rowMul, Matrix.trace, Matrix.diag, rNeg,
    Fin.sum_univ_one]
  norm_num

/-- Evaluation of tr_STS at the concrete aggregate rNeg. -/
theorem tr_STS_rNeg : GWRResults.tr_STS rNeg = 16 := by
  simp [GWRResults.tr_STS, GWRResults.rowMul, Matrix.trace, Matrix.diag, rNeg,
    Matrix.mul_apply, Matrix.transpose_apply, Fin.sum_univ_one]
  norm_num

/-- Evaluation of pe at the concrete aggregate rNeg. -/
theorem pe_rNeg : GWRResults.pe rNeg = -8 := by
  rw [GWRResults.pe, tr_S_rNeg, tr_STS_rNeg]
  norm_num

/-- Evaluation of the three literal significance levels. -/
theorem alphaLevels_eval : GWRResults.alphaLevels 0 = 1/10 ∧
    GWRResults.alphaLevels 1 = 1/20 ∧ GWRResults.alphaLevels 2 = 1/1000 := by
  refine ⟨?_, ?_, ?_⟩ <;> norm_num [GWRResults.alphaLevels]

/-- C5 counterexample: at the concrete aggregate rNeg the denominator
pe = -8 is negative, yet accessing adj_alpha raises nothing (the source has
no guard and no raise statement in adj_alpha) and returns the negative
critical values (-1/80, -1/160, -1/8000). -/
theorem adj_alpha_no_raise_on_negative_pe :
    GWRResults.pe rNeg = -8 ∧
    GWRResults.adj_alpha rNeg 0 = -1/80 ∧
    GWRResults.adj_alpha rNeg 1 = -1/160 ∧
    GWRResults.adj_alpha rNeg 2 = -1/8000 := by
  refine ⟨pe_rNeg, ?_, ?_, ?_⟩ <;>
    rw [GWRResults.adj_alpha, pe_rNeg] <;>
    norm_num [GWRResults.alphaLevels]

/-- C5 (amended): whenever pe < 0 and the model has at least one regressor,
accessing adj_alpha does not raise: it returns, and every returned critical
value is negative. -/
theorem adj_alpha_negative_when_pe_neg (n k : ℕ) (r : GWRResultsData n k)
    (hpe : GWRResults.pe r < 0) (hk : 0 < k) :
    GWRResults.adj_alpha r 0 < 0 ∧ GWRResults.adj_alpha r 1 < 0 ∧
    GWRResults.adj_alpha r 2 < 0 := by
  have hk0 : (0 : ℚ) < (k : ℚ) := by exact_mod_cast hk
  obtain ⟨e0, e1, e2⟩ := alphaLevels_eval
  refine ⟨?_, ?_, ?_⟩
  · show GWRResults.alphaLevels 0 * (k : ℚ) / GWRResults.pe r < 0
    exact div_neg_of_pos_of_neg (mul_pos (by rw [e0]; norm_num) hk0) hpe
  · show GWRResults.alphaLevels 1 * (k : ℚ) / GWRResults.pe r < 0
    exact div_neg_of_pos_of_neg (mul_pos (by rw [e1]; norm_num) hk0) hpe
  · show GWRResults.alphaLevels 2 * (k : ℚ) / GWRResults.pe r < 0
    exact div_neg_of_pos_of_neg (mul_pos (by rw [e2]; norm_num) hk0) hpe

/-- Witness for the amended C5 theorem at the concrete aggregate rNeg. -/
theorem adj_alpha_negative_when_pe_neg_witness :
    GWRResults.pe rNeg < 0 ∧ 0 < 1 ∧
    (GWRResults.adj_alpha rNeg 0 < 0 ∧ GWRResults.adj_alpha rNeg 1 < 0 ∧
      GWRResults.adj_alpha rNeg 2 < 0) :=
  ⟨by rw [pe_rNeg]; norm_num, Nat.one_pos,
    adj_alpha_negative_when_pe_neg 1 1 rNeg (by rw [pe_rNeg]; norm_num) Nat.one_pos⟩

/-- C6: whenever pe is nonzero (and there is at least one regressor), the
adj_alpha vector is exactly [0.10, 0.05, 0.001] times k over pe, and its
third entry differs from the value 0.01 that the documented 99% label would
suggest. -/
theorem adj_alpha_literal_levels (n k : ℕ) (r : GWRResultsData n k)
    (hpe : GWRResults.pe r ≠ 0) (hk : 0 < k) :
    GWRResults.adj_alpha r 0 = (1/10) * (k : ℚ) / GWRResults.pe r ∧
    GWRResults.adj_alpha r 1 = (1/20) * (k : ℚ) / GWRResults.pe r ∧
    GWRResults.adj_alpha r 2 = (1/1000) * (k : ℚ) / GWRResults.pe r ∧
    GWRResults.adj_alpha r 2 ≠ (1/100) * (k : ℚ) / GWRResults.pe r := by
  have hk0 : (k : ℚ) ≠ 0 := Nat.cast_ne_zero.mpr hk.ne'
  obtain ⟨e0, e1, e2⟩ := alphaLevels_eval
  have v2 : GWRResults.adj_alpha r 2 = (1/1000) * (k : ℚ) / GWRResults.pe r := by
    rw [GWRResults.adj_alpha, e2]
  refine ⟨by rw [GWRResults.adj_alpha, e0], by rw [GWRResults.adj_alpha, e1], v2, ?_⟩
  rw [v2]
  intro h
  rw [div_eq_div_iff hpe hpe] at h
  have h2 := mul_right_cancel₀ hpe h
  have h3 := mul_right_cancel₀ hk0 h2
  norm_num at h3

/-- Witness for the C6 theorem at the concrete aggregate rNeg. -/
theorem adj_alpha_literal_levels_witness :
    GWRResults.pe rNeg ≠ 0 ∧ 0 < 1 ∧
    (GWRResults.adj_alpha rNeg 0 = (1/10) * ((1:ℕ) : ℚ) / GWRResults.pe rNeg ∧
     GWRResults.adj_alpha rNeg 1 = (1/20) * ((1:ℕ) : ℚ) / GWRResults.pe rNeg ∧
     GWRResults.adj_alpha rNeg 2 = (1/1000) * ((1:ℕ) : ℚ) / GWRResults.pe rNeg ∧
     GWRResults.adj_alpha rNeg 2 ≠ (1/100) * ((1:ℕ) : ℚ) / GWRResults.pe rNeg) :=
  ⟨by rw [pe_rNeg]; norm_num, Nat.one_pos,
    adj_alpha_literal_levels 1 1 rNeg (by rw [pe_rNeg]; norm_num) Nat.one_pos⟩

/-- C7 counterexample: constructing with the unsupported kernel name
"triweight" and fixed=False fails with the bare KeyError escaping the ak
dict lookup, not with the TypeError that tags unsupported kernels; the
fixed=True branch raises that TypeError, so the two branches do not raise
one common typed configuration error. -/
theorem build_W_adaptive_bad_kernel_not_typeerror :
    GWR.mkGWR ![(0:ℚ)] !![0] false Family.Gaussian false "triweight"
        (fun _ => !![1]) (fun _ => !![1]) =
      Except.error (PyErr.keyError "triweight") ∧
    isUnsupportedKernelTypeError
      (GWR.mkGWR ![(0:ℚ)] !![0] false Family.Gaussian false "triweight"
        (fun _ => !![1]) (fun _ => !![1])) = false ∧
    GWR.mkGWR ![(0:ℚ)] !![0] false Family.Gaussian true "triweight"
        (fun _ => !![1]) (fun _ => !![1]) =
      Except.error (PyErr.typeError "Unsupported kernel function  " "triweight") :=
  ⟨rfl, rfl, rfl⟩

/-- C7 (amended): any kernel name outside {gaussian, bisquare, exponential}
makes the constructor raise before any calibration loop can exist, for both
fixed=True and fixed=False, but with different errors: the fixed branch
raises TypeError("Unsupported kernel function  ", kernel) while the adaptive
branch lets the dict KeyError escape untyped-by-the-module; no
ConfigurationError class exists in the source. -/
theorem mkGWR_bad_kernel_raises (n k : ℕ) (y : Fin n → ℚ)
    (X : Matrix (Fin n) (Fin k) ℚ) (flag : Bool) (family : Family)
    (kernel : String) (h : kernel ∉ GWR.fkKeys)
    (applyFk applyAk : String → Matrix (Fin n) (Fin n) ℚ) :
    GWR.mkGWR y X flag family true kernel applyFk applyAk =
      Except.error (PyErr.typeError "Unsupported kernel function  " kernel) ∧
    GWR.mkGWR y X flag family false kernel applyFk applyAk =
      Except.error (PyErr.keyError kernel) := by
  have h2 : kernel ∉ GWR.akKeys := by
    simpa [GWR.akKeys, GWR.fkKeys] using h
  constructor
  · simp [GWR.mkGWR, GWR.build_W, GWR.dictGet, h]
  · simp [GWR.mkGWR, GWR.build_W, GWR.dictGet, h2]

/-- Witness for the amended C7 theorem at the kernel name "triweight". -/
theorem mkGWR_bad_kernel_raises_witness :
    "triweight" ∉ GWR.fkKeys ∧
    (GWR.mkGWR ![(0:ℚ)] !![0] false Family.Gaussian true "triweight"
        (fun _ => !![1]) (fun _ => !![1]) =
      Except.error (PyErr.typeError "Unsupported kernel function  " "triweight") ∧
     GWR.mkGWR ![(0:ℚ)] !![0] false Family.Gaussian false "triweight"
        (fun _ => !![1]) (fun _ => !![1]) =
      Except.error (PyErr.keyError "triweight")) :=
  ⟨by decide,
    mkGWR_bad_kernel_raises 1 1 ![(0:ℚ)] !![0] false Family.Gaussian "triweight"
      (by decide) (fun _ => !![1]) (fun _ => !![1])⟩

/-- C8: each iteration i of the calibration loop writes only index i of
every per-location output array (params, predy, v, w, z, S, R, CCT),
leaving every index j ≠ i unchanged, and the row it writes at i is a
function of the shared read-only inputs (the solver closure over y, offset,
y_fix and the fit parameters, the design X, the weights W) and i alone,
identical for any two prior states. -/
theorem fit_loop_iteration_frame (n k : ℕ)
    (solver : (Fin n → ℚ) → IWLSResult n k) (X : Matrix (Fin n) (Fin k) ℚ)
    (W : Matrix (Fin n) (Fin n) ℚ) (s s2 : FitState n k) (i j : Fin n)
    (h : j ≠ i) :
    GWR.stateRow (GWR.fitStep solver X W s i) j = GWR.stateRow s j ∧
    GWR.stateRow (GWR.fitStep solver X W s i) i = GWR.fitBodyRow solver X W i ∧
    GWR.stateRow (GWR.fitStep solver X W s2 i) i = GWR.fitBodyRow solver X W i :=
  ⟨GWR.fitStep_stateRow_ne solver X W s i j h,
   GWR.fitStep_stateRow_self solver X W s i,
   GWR.fitStep_stateRow_self solver X W s2 i⟩

/-- Witness for the C8 theorem at a concrete two-location fit. -/
theorem fit_loop_iteration_frame_witness :
    (1 : Fin 2) ≠ 0 ∧
    (GWR.stateRow (GWR.fitStep solver2 X2 W2 sA 0) 1 = GWR.stateRow sA 1 ∧
     GWR.stateRow (GWR.fitStep solver2 X2 W2 sA 0) 0 =
       GWR.fitBodyRow solver2 X2 W2 0 ∧
     GWR.stateRow (GWR.fitStep solver2 X2 W2 sB 0) 0 =
       GWR.fitBodyRow solver2 X2 W2 0) :=
  ⟨by decide, fit_loop_iteration_frame 2 1 solver2 X2 W2 sA sB 0 1 (by decide)⟩

/-- C9: when every entry of the stacked working-response matrix z is
nonzero, the post-loop elementwise division by z exactly cancels the
elementwise multiplication performed inside the loop, so the final hat
matrix satisfies S[i][j] = (X_i C_i)_j. -/
theorem fit_hat_rescale_cancels (n k : ℕ)
    (solver : (Fin n → ℚ) → IWLSResult n k) (X : Matrix (Fin n) (Fin k) ℚ)
    (W : Matrix (Fin n) (Fin n) ℚ)
    (hz : ∀ i j, (GWR.fitLoop solver X W).z i j ≠ 0) (i j : Fin n) :
    GWR.fitS solver X W i j = GWR.fitRi X (solver (fun j2 => W i j2)).C i j := by
  have hzi := congrFun (GWR.fitLoop_z_apply solver X W i) j
  have hSi := congrFun (GWR.fitLoop_S_apply solver X W i) j
  have hznz : (GWR.fitLoop solver X W).z i j ≠ 0 := hz i j
  rw [hzi] at hznz
  show (GWR.fitLoop solver X W).S i j * (1 / (GWR.fitLoop solver X W).z i j) =
    GWR.fitRi X (solver (fun j2 => W i j2)).C i j
  rw [hSi, hzi, mul_assoc, mul_one_div, div_self hznz, mul_one]

/-- Witness for the C9 theorem at a concrete one-location fit with z = [2]. -/
theorem fit_hat_rescale_cancels_witness :
    (GWR.fitLoop solver1 X1 W1).z 0 0 ≠ 0 ∧
    GWR.fitS solver1 X1 W1 0 0 =
      GWR.fitRi X1 (solver1 (fun j2 => W1 0 j2)).C 0 0 :=
  ⟨by rw [congrFun (GWR.fitLoop_z_apply solver1 X1 W1 0) 0]; norm_num [solver1],
    fit_hat_rescale_cancels 1 1 solver1 X1 W1
      (by
        intro i j
        have h1 : i = 0 := Subsingleton.elim i 0
        have h2 : j = 0 := Subsingleton.elim j 0
        subst h1; subst h2
        rw [congrFun (GWR.fitLoop_z_apply solver1 X1 W1 0) 0]
        norm_num [solver1]) 0 0⟩

/-- C10: filter_tvals raises on every input: the line assigning critical
reads the unassigned local name critical (and a global stats the module
never imports), so the filtering statements after it are unreachable and no
filtered t-value array is ever returned. -/
theorem filter_tvals_always_raises (n k : ℕ)
    (tvalues : Matrix (Fin n) (Fin k) ℚ) (alpha : ℚ) :
    GWRResults.filter_tvals tvalues alpha =
      Except.error (PyErr.unboundLocal "critical") := rfl

/-- C3: for every model, solver and solve string, fit either returns the
fully populated aggregate assembled from the loop outputs (exactly when
solve lowercases to "iwls") or raises a typed error: for any other solve
string the skipped loop block leaves params unassigned and the trailing
return statement raises UnboundLocalError, so no partial or empty result is
ever produced. -/
theorem fit_returns_full_or_raises (n k : ℕ) (m : GWR.GWRModelData n k)
    (solver : (Fin n → ℚ) → IWLSResult n k) (solve : String) :
    (solve.toLower = "iwls" ∧
      GWR.fit m solver solve = Except.ok
        { sigma2_v1_flag := m.sigma2_v1_flag
          family := m.family
          y := m.y
          params := (GWR.fitLoop solver m.X m.W).params
          predy := (GWR.fitLoop solver m.X m.W).predy
          w := (GWR.fitLoop solver m.X m.W).w
          S := GWR.fitS solver m.X m.W
          CCT := (GWR.fitLoop solver m.X m.W).CCT }) ∨
    (solve.toLower ≠ "iwls" ∧
      GWR.fit m solver solve = Except.error (PyErr.unboundLocal "params")) := by
  by_cases h : solve.toLower = "iwls"
  · exact Or.inl ⟨h, by simp [GWR.fit, h]⟩
  · exact Or.inr ⟨h, by simp [GWR.fit, h]⟩
